import Mathlib

/-!
# KDDockWidgets: drop-indicator overlay, side bar widget and main window

A shallow embedding of `DropIndicatorOverlayInterface.cpp`, `SideBarWidget.cpp` and
`MainWindow.cpp`.  Objects are records, pointers are `Option`s of object identities,
member functions are state transformers, emitted signals are appended to a log and
signal/slot connections are kept in a list.
-/

namespace KDDockWidgets

/-! ## Toolkit values -/

/-- A rectangle as Qt stores it: the coordinates of the two corners. -/
structure QRect where
  x1 : Int
  y1 : Int
  x2 : Int
  y2 : Int
  deriving DecidableEq, Repr

/-- The default-constructed rectangle `QRect()`, the null rectangle. -/
def QRect.null : QRect := ⟨0, 0, -1, -1⟩

/-- Identity of a `Frame` object (what a `Frame *` points to). -/
abbrev Frame := Nat

/-- Identity of a `FloatingWindow` object. -/
abbrev FloatingWindow := Nat

/-- The enumerators of `KDDockWidgets::Location` that the overlay uses. -/
inductive Location
  | Location_None
  | Location_OnLeft
  | Location_OnTop
  | Location_OnRight
  | Location_OnBottom
  deriving DecidableEq, Repr

/-- The enumerators of `DropIndicatorOverlayInterface::DropLocation`. -/
inductive DropLocation
  | DropLocation_None
  | DropLocation_Left
  | DropLocation_Top
  | DropLocation_Right
  | DropLocation_Bottom
  | DropLocation_Center
  | DropLocation_OutterLeft
  | DropLocation_OutterTop
  | DropLocation_OutterRight
  | DropLocation_OutterBottom
  deriving DecidableEq, Repr

open Location DropLocation

/-- The static `DropIndicatorOverlayInterface::multisplitterLocationFor`, case by case. -/
def multisplitterLocationFor (dropLoc : DropLocation) : Location :=
  match dropLoc with
  | DropLocation_None => Location_None
  | DropLocation_Left => Location_OnLeft
  | DropLocation_OutterLeft => Location_OnLeft
  | DropLocation_OutterTop => Location_OnTop
  | DropLocation_Top => Location_OnTop
  | DropLocation_OutterRight => Location_OnRight
  | DropLocation_Right => Location_OnRight
  | DropLocation_OutterBottom => Location_OnBottom
  | DropLocation_Bottom => Location_OnBottom
  | DropLocation_Center => Location_None

/-- The outer indicator on the same side as an inner one (other values are left alone). -/
def outerCounterpart (dropLoc : DropLocation) : DropLocation :=
  match dropLoc with
  | DropLocation_Left => DropLocation_OutterLeft
  | DropLocation_Top => DropLocation_OutterTop
  | DropLocation_Right => DropLocation_OutterRight
  | DropLocation_Bottom => DropLocation_OutterBottom
  | other => other

/-! ## The drop-indicator overlay -/

/-- The signals declared by the overlay. -/
inductive Signal
  | hoveredFrameChanged (frame : Option Frame)
  | hoveredFrameRectChanged
  | currentDropLocationChanged
  deriving DecidableEq, Repr

/-- The widget part of the overlay (`QWidgetAdapter`): what `setVisible`, `setObjectName`,
`setGeometry` and `raise` act upon. `raiseCount` counts the calls of `raise`. -/
structure QWidgetAdapter where
  visible : Bool
  objectName : String
  geometry : QRect
  raiseCount : Nat
  deriving DecidableEq, Repr

/-- The data members of `DropIndicatorOverlayInterface`, with the bookkeeping the object
system keeps for it: `destroyedConnections` lists the frames whose `destroyed` signal is
connected to `onFrameDestroyed` (one entry per connection), `emitted` logs the signals
emitted so far, oldest first. -/
structure InterfaceMembers where
  m_hoveredFrameRect : QRect
  m_currentDropLocation : DropLocation
  m_hoveredFrame : Option Frame
  m_windowBeingDragged : Option FloatingWindow
  destroyedConnections : List Frame
  emitted : List Signal
  deriving DecidableEq, Repr

/-- An overlay object: the widget part, the interface members and the data `ext` of the
concrete subclass that overrides the virtual hooks. -/
structure DropIndicatorOverlayInterface (E : Type) extends QWidgetAdapter, InterfaceMembers where
  ext : E
  deriving DecidableEq, Repr

/-- What a call reads from outside the overlay: the current geometry of every frame and the
current `rect()` of the drop area. -/
structure World where
  frameGeometry : Frame → QRect
  dropAreaRect : QRect

/-- The virtual hooks the interface calls; their overrides live in subclasses. -/
structure Hooks (E : Type) where
  updateVisibility : DropIndicatorOverlayInterface E → DropIndicatorOverlayInterface E
  onHoveredFrameChanged : Option Frame → DropIndicatorOverlayInterface E →
    DropIndicatorOverlayInterface E

namespace DropIndicatorOverlayInterface

variable {E : Type}

/-- The widget call `setVisible`. -/
def setVisible (v : Bool) (s : DropIndicatorOverlayInterface E) : DropIndicatorOverlayInterface E :=
  { s with visible := v }

/-- The object call `setObjectName`. -/
def setObjectName (n : String) (s : DropIndicatorOverlayInterface E) :
    DropIndicatorOverlayInterface E :=
  { s with objectName := n }

/-- The widget call `setGeometry`. -/
def setGeometry (r : QRect) (s : DropIndicatorOverlayInterface E) :
    DropIndicatorOverlayInterface E :=
  { s with geometry := r }

/-- The widget call `raise`. -/
def raise (s : DropIndicatorOverlayInterface E) : DropIndicatorOverlayInterface E :=
  { s with raiseCount := s.raiseCount + 1 }

/-- Emitting a signal: it is appended to the log. -/
def emit (sig : Signal) (s : DropIndicatorOverlayInterface E) : DropIndicatorOverlayInterface E :=
  { s with emitted := s.emitted ++ [sig] }

/-- Connecting `frame`'s `destroyed` signal to `onFrameDestroyed`: one more connection. -/
def connectDestroyed (frame : Frame) (s : DropIndicatorOverlayInterface E) :
    DropIndicatorOverlayInterface E :=
  { s with destroyedConnections := s.destroyedConnections ++ [frame] }

/-- Disconnecting `frame`'s `destroyed` signal from `onFrameDestroyed`: every such connection
goes. -/
def disconnectDestroyed (frame : Frame) (s : DropIndicatorOverlayInterface E) :
    DropIndicatorOverlayInterface E :=
  { s with destroyedConnections := s.destroyedConnections.filter (fun g => g ≠ frame) }

/-- Modelled from the spec: the member initialisers of `DropIndicatorOverlayInterface_p.h`,
which is not among the sources. A new overlay has no window being dragged and no hovered
frame, its hovered-frame rectangle is `QRect()`, nothing is connected and nothing was
emitted; the initial drop location `loc0` is left open. -/
def initialMembers (loc0 : DropLocation) : InterfaceMembers :=
  { m_hoveredFrameRect := QRect.null
    m_currentDropLocation := loc0
    m_hoveredFrame := none
    m_windowBeingDragged := none
    destroyedConnections := []
    emitted := [] }

/-- The constructor: on top of the new widget `widget0` it hides the overlay and names it. -/
def construct (widget0 : QWidgetAdapter) (loc0 : DropLocation) (ext0 : E) :
    DropIndicatorOverlayInterface E :=
  setObjectName "DropIndicatorOverlayInterface"
    (setVisible false
      { toQWidgetAdapter := widget0, toInterfaceMembers := initialMembers loc0, ext := ext0 })

/-- The getter `hoveredFrameRect`. -/
def hoveredFrameRect (s : DropIndicatorOverlayInterface E) : QRect :=
  s.m_hoveredFrameRect

/-- The getter `hoveredFrame`. -/
def hoveredFrame (s : DropIndicatorOverlayInterface E) : Option Frame :=
  s.m_hoveredFrame

/-- The getter `isHovered`: a window is being dragged. -/
def isHovered (s : DropIndicatorOverlayInterface E) : Bool :=
  s.m_windowBeingDragged != none

/-- The getter `currentDropLocation`. -/
def currentDropLocation (s : DropIndicatorOverlayInterface E) : DropLocation :=
  s.m_currentDropLocation

/-- The setter `setHoveredFrameRect`. -/
def setHoveredFrameRect (rect : QRect) (s : DropIndicatorOverlayInterface E) :
    DropIndicatorOverlayInterface E :=
  if s.m_hoveredFrameRect ≠ rect then
    emit Signal.hoveredFrameRectChanged { s with m_hoveredFrameRect := rect }
  else s

/-- The setter `setCurrentDropLocation`. -/
def setCurrentDropLocation (location : DropLocation) (s : DropIndicatorOverlayInterface E) :
    DropIndicatorOverlayInterface E :=
  if s.m_currentDropLocation ≠ location then
    emit Signal.currentDropLocationChanged { s with m_currentDropLocation := location }
  else s

/-- The setter `setHoveredFrame`. -/
def setHoveredFrame (H : Hooks E) (w : World) (frame : Option Frame)
    (s : DropIndicatorOverlayInterface E) : DropIndicatorOverlayInterface E :=
  if frame = s.m_hoveredFrame then s
  else
    let s1 := match s.m_hoveredFrame with
      | some old => disconnectDestroyed old s
      | none => s
    let s2 := { s1 with m_hoveredFrame := frame }
    let s3 := match s2.m_hoveredFrame with
      | some f => setHoveredFrameRect (w.frameGeometry f) (connectDestroyed f s2)
      | none => setHoveredFrameRect QRect.null s2
    let s4 := H.updateVisibility s3
    let s5 := emit (Signal.hoveredFrameChanged s4.m_hoveredFrame) s4
    H.onHoveredFrameChanged s5.m_hoveredFrame s5

/-- The setter `setWindowBeingDragged`. -/
def setWindowBeingDragged (H : Hooks E) (w : World) (window : Option FloatingWindow)
    (s : DropIndicatorOverlayInterface E) : DropIndicatorOverlayInterface E :=
  if window = s.m_windowBeingDragged then s
  else
    let s1 := { s with m_windowBeingDragged := window }
    let s2 := match s1.m_windowBeingDragged with
      | some _ => raise (setGeometry w.dropAreaRect s1)
      | none => setHoveredFrame H w none s1
    let s3 := setVisible (s2.m_windowBeingDragged != none) s2
    H.updateVisibility s3

/-- The slot `onFrameDestroyed`. -/
def onFrameDestroyed (H : Hooks E) (w : World) (s : DropIndicatorOverlayInterface E) :
    DropIndicatorOverlayInterface E :=
  setHoveredFrame H w none s

/-- Destruction of the frame `frame`: its `destroyed` signal runs the slot once for each
connection the overlay holds to it, after which the object system drops the connections of
the dead object. -/
def frameDestroyed (H : Hooks E) (w : World) (frame : Frame)
    (s : DropIndicatorOverlayInterface E) : DropIndicatorOverlayInterface E :=
  disconnectDestroyed frame
    (Nat.iterate (onFrameDestroyed H w) (s.destroyedConnections.count frame) s)

/-- The hooks leave the overlay's own visibility as they find it. -/
def KeepVisibility (H : Hooks E) : Prop :=
  (∀ s, (H.updateVisibility s).visible = s.visible) ∧
  (∀ f s, (H.onHoveredFrameChanged f s).visible = s.visible)

/-- The hooks leave the interface's own members, connections and signal log as they find
them. -/
def KeepMembers (H : Hooks E) : Prop :=
  (∀ s, (H.updateVisibility s).toInterfaceMembers = s.toInterfaceMembers) ∧
  (∀ f s, (H.onHoveredFrameChanged f s).toInterfaceMembers = s.toInterfaceMembers)

/-- The hooks leave the window being dragged as they find it. -/
def KeepDragged (H : Hooks E) : Prop :=
  (∀ s, (H.updateVisibility s).m_windowBeingDragged = s.m_windowBeingDragged) ∧
  (∀ f s, (H.onHoveredFrameChanged f s).m_windowBeingDragged = s.m_windowBeingDragged)

/-- A sample subclass: its data counts the hook calls, `updateVisibility` adding one and
`onHoveredFrameChanged` adding ten. -/
def countingHooks : Hooks Nat :=
  { updateVisibility := fun s => { s with ext := s.ext + 1 }
    onHoveredFrameChanged := fun _ s => { s with ext := s.ext + 10 } }

/-- A subclass whose `updateVisibility` override resets the protected member
`m_windowBeingDragged` and touches nothing else, visibility included; its
`onHoveredFrameChanged` is the empty one of the base class. -/
def forgetfulHooks : Hooks Unit :=
  { updateVisibility := fun s => { s with m_windowBeingDragged := none }
    onHoveredFrameChanged := fun _ s => s }

/-- What can happen to an overlay from outside. -/
inductive Call
  | setHoveredFrame (w : World) (frame : Option Frame)
  | setWindowBeingDragged (w : World) (window : Option FloatingWindow)
  | setCurrentDropLocation (location : DropLocation)
  | onFrameDestroyed (w : World)
  | frameDestroyed (w : World) (frame : Frame)

/-- One call applied to an overlay. -/
def Call.apply (H : Hooks E) (c : Call) (s : DropIndicatorOverlayInterface E) :
    DropIndicatorOverlayInterface E :=
  match c with
  | Call.setHoveredFrame w frame => DropIndicatorOverlayInterface.setHoveredFrame H w frame s
  | Call.setWindowBeingDragged w window =>
    DropIndicatorOverlayInterface.setWindowBeingDragged H w window s
  | Call.setCurrentDropLocation location =>
    DropIndicatorOverlayInterface.setCurrentDropLocation location s
  | Call.onFrameDestroyed w => DropIndicatorOverlayInterface.onFrameDestroyed H w s
  | Call.frameDestroyed w frame => DropIndicatorOverlayInterface.frameDestroyed H w frame s

/-- A sequence of calls applied in order. -/
def run (H : Hooks E) (calls : List Call) (s : DropIndicatorOverlayInterface E) :
    DropIndicatorOverlayInterface E :=
  calls.foldl (fun t c => c.apply H t) s

/-- A sequence of `setWindowBeingDragged` calls applied in order. -/
def runDrags (H : Hooks E) (drags : List (World × Option FloatingWindow))
    (s : DropIndicatorOverlayInterface E) : DropIndicatorOverlayInterface E :=
  drags.foldl (fun t d => setWindowBeingDragged H d.1 d.2 t) s

/-- The rectangle `setHoveredFrame` stores for a frame. -/
def rectFor (w : World) (frame : Option Frame) : QRect :=
  match frame with
  | some f => w.frameGeometry f
  | none => QRect.null

/-- The connections left once those to the previously hovered frame are gone. -/
def withoutOld (old : Option Frame) (conns : List Frame) : List Frame :=
  match old with
  | some o => conns.filter (fun g => g ≠ o)
  | none => conns

/-- The states an overlay can be in: those a new overlay gets to by some calls. -/
def Reachable (H : Hooks E) (s : DropIndicatorOverlayInterface E) : Prop :=
  ∃ (calls : List Call) (widget0 : QWidgetAdapter) (loc0 : DropLocation) (ext0 : E),
    s = run H calls (construct widget0 loc0 ext0)

/-- The bookkeeping is consistent: the overlay is connected once to the hovered frame and to
nothing else, and without a hovered frame the stored rectangle is the null one. -/
def Consistent (s : DropIndicatorOverlayInterface E) : Prop :=
  s.destroyedConnections = s.m_hoveredFrame.toList ∧
  (s.m_hoveredFrame = none → s.m_hoveredFrameRect = QRect.null)

/-- A world in which every frame has the geometry `r`. -/
def World.uniform (r : QRect) : World :=
  { frameGeometry := fun _ => r, dropAreaRect := ⟨0, 0, 799, 599⟩ }

/-- A new child widget as the toolkit makes it. -/
def sampleWidget : QWidgetAdapter :=
  { visible := true, objectName := "", geometry := ⟨0, 0, 99, 29⟩, raiseCount := 0 }

/-- A sample run with the counting subclass: window 4 is dragged over frame 1. -/
def sampleDragging : DropIndicatorOverlayInterface Nat :=
  run countingHooks
    [Call.setWindowBeingDragged (World.uniform ⟨10, 20, 109, 79⟩) (some 4),
     Call.setHoveredFrame (World.uniform ⟨10, 20, 109, 79⟩) (some 1)]
    (construct sampleWidget DropLocation.DropLocation_None 0)

end DropIndicatorOverlayInterface

/-! ## The side bar widget -/

/-- The two values of `Qt::Orientation`. -/
inductive Orientation
  | Horizontal
  | Vertical
  deriving DecidableEq, Repr

/-- A dock widget as the side bar sees it: its identity and its current title. -/
structure DockWidgetBase where
  id : Nat
  title : String
  deriving DecidableEq, Repr

/-- A button of the side bar: its identity and its text. -/
structure QAbstractButton where
  id : Nat
  text : String
  deriving DecidableEq, Repr

/-- An item of a box layout. -/
inductive LayoutItem
  | widget (button : QAbstractButton)
  | stretch
  deriving DecidableEq, Repr

/-- The two box layouts the side bar chooses from. -/
inductive BoxKind
  | QVBoxLayout
  | QHBoxLayout
  deriving DecidableEq, Repr

/-- A box layout: its kind, spacing, contents margins and items in order. -/
structure QBoxLayout where
  kind : BoxKind
  spacing : Int
  contentsMargins : Int × Int × Int × Int
  items : List LayoutItem
  deriving DecidableEq, Repr

/-- The connections `addDockWidget_Impl` makes, by the identities of the dock widget and
the button. -/
inductive SideBarConnection
  | titleChanged_setText (dw : Nat) (button : Nat)
  | destroyed_deleteLater (dw : Nat) (button : Nat)
  | clicked_onButtonClicked (button : Nat) (dw : Nat)
  deriving DecidableEq, Repr

/-- The toolkit call `QBoxLayout::count`. -/
def QBoxLayout.count (l : QBoxLayout) : Int :=
  l.items.length

/-- The toolkit call `QBoxLayout::addStretch`. -/
def QBoxLayout.addStretch (l : QBoxLayout) : QBoxLayout :=
  { l with items := l.items ++ [LayoutItem.stretch] }

/-- The toolkit call `QBoxLayout::insertWidget`: a negative index appends. -/
def QBoxLayout.insertWidget (index : Int) (button : QAbstractButton) (l : QBoxLayout) :
    QBoxLayout :=
  if index < 0 then { l with items := l.items ++ [LayoutItem.widget button] }
  else { l with items := l.items.insertIdx index.toNat (LayoutItem.widget button) }

/-- The side bar widget: orientation, layout, connections made and number of buttons
created so far (the identity of the next one). -/
structure SideBarWidget where
  orientation : Orientation
  m_layout : QBoxLayout
  connections : List SideBarConnection
  buttonsCreated : Nat
  deriving DecidableEq, Repr

namespace SideBarWidget

/-- The base-class query `isVertical`. -/
def isVertical (orientation : Orientation) : Bool :=
  orientation = Orientation.Vertical

/-- The constructor: a vertical or horizontal box with spacing 1, no margins and a
stretch. -/
def construct (orientation : Orientation) : SideBarWidget :=
  let l0 : QBoxLayout :=
    { kind := if isVertical orientation then BoxKind.QVBoxLayout else BoxKind.QHBoxLayout
      spacing := -1
      contentsMargins := (-1, -1, -1, -1)
      items := [] }
  let l1 := { l0 with spacing := 1 }
  let l2 := { l1 with contentsMargins := (0, 0, 0, 0) }
  { orientation := orientation
    m_layout := l2.addStretch
    connections := []
    buttonsCreated := 0 }

/-- The factory `createButton`: a new tool button, with no text yet. -/
def createButton (sb : SideBarWidget) : QAbstractButton × SideBarWidget :=
  (⟨sb.buttonsCreated, ""⟩, { sb with buttonsCreated := sb.buttonsCreated + 1 })

/-- The member `addDockWidget_Impl`. -/
def addDockWidget_Impl (dw : DockWidgetBase) (sb : SideBarWidget) : SideBarWidget :=
  let (button0, sb1) := createButton sb
  let button := { button0 with text := dw.title }
  let sb2 := { sb1 with connections := sb1.connections ++
    [SideBarConnection.titleChanged_setText dw.id button.id,
     SideBarConnection.destroyed_deleteLater dw.id button.id,
     SideBarConnection.clicked_onButtonClicked button.id dw.id] }
  let count := sb2.m_layout.count
  { sb2 with m_layout := sb2.m_layout.insertWidget (count - 1) button }

/-- A sequence of `addDockWidget_Impl` calls applied in order. -/
def addAll (dws : List DockWidgetBase) (sb : SideBarWidget) : SideBarWidget :=
  dws.foldl (fun t dw => addDockWidget_Impl dw t) sb

/-- The layout items for the dock widgets `dws` when the first button made has identity
`k`: one button each, in order, with the title as text. -/
def buttonItems (k : Nat) (dws : List DockWidgetBase) : List LayoutItem :=
  (dws.enumFrom k).map (fun p => LayoutItem.widget ⟨p.1, p.2.title⟩)

/-- The connections made for the dock widgets `dws` when the first button made has identity
`k`: three each. -/
def connectionsFor (k : Nat) (dws : List DockWidgetBase) : List SideBarConnection :=
  (dws.enumFrom k).flatMap (fun p =>
    [SideBarConnection.titleChanged_setText p.2.id p.1,
     SideBarConnection.destroyed_deleteLater p.2.id p.1,
     SideBarConnection.clicked_onButtonClicked p.1 p.2.id])

end SideBarWidget

/-! ## The main window -/

/-- The drop area of a main window, known by its identity. -/
structure DropAreaWithCentralFrame where
  id : Nat
  deriving DecidableEq, Repr

/-- What the base-class constructor leaves behind: the name, the options and the drop area
that `dropArea()` returns. -/
structure MainWindowBase where
  uniqueName : String
  options : Nat
  dropArea : DropAreaWithCentralFrame
  deriving DecidableEq, Repr

/-- A widget placed in the layout of the central widget. -/
inductive CentralChild
  | dropArea (area : DropAreaWithCentralFrame)
  | sideBar (bar : SideBarWidget)
  deriving DecidableEq, Repr

/-- The vertical layout of the central widget. -/
structure CentralLayout where
  spacing : Int
  contentsMargins : Int × Int × Int × Int
  widgets : List CentralChild
  deriving DecidableEq, Repr

/-- The toolkit call `addWidget`: a null widget is not added. -/
def CentralLayout.addWidget (child : Option CentralChild) (l : CentralLayout) : CentralLayout :=
  match child with
  | some c => { l with widgets := l.widgets ++ [c] }
  | none => l

/-- The private part `MainWindow::Private`. -/
structure MainWindowPrivate where
  m_supportsMinimize : Bool
  m_dropArea : DropAreaWithCentralFrame
  m_sideBar : Option SideBarWidget
  deriving DecidableEq, Repr

/-- The constructor of `MainWindow::Private`; `supportsAutoHide` is what
`Config::self().supportsAutoHide()` returns and `area` the drop area it allocates. -/
def MainWindowPrivate.construct (supportsAutoHide : Bool) (area : DropAreaWithCentralFrame) :
    MainWindowPrivate :=
  let m_supportsMinimize := supportsAutoHide
  { m_supportsMinimize := m_supportsMinimize
    m_dropArea := area
    m_sideBar := if m_supportsMinimize then some (SideBarWidget.construct Orientation.Horizontal)
                 else none }

/-- A main window: the base part, the private part and the layout of its central widget. -/
structure MainWindow where
  base : MainWindowBase
  d : MainWindowPrivate
  centralLayout : CentralLayout
  deriving DecidableEq, Repr

namespace MainWindow

/-- The constructor of `MainWindow`. -/
def construct (supportsAutoHide : Bool) (base : MainWindowBase)
    (area : DropAreaWithCentralFrame) : MainWindow :=
  let d := MainWindowPrivate.construct supportsAutoHide area
  let l0 : CentralLayout := { spacing := -1, contentsMargins := (-1, -1, -1, -1), widgets := [] }
  let l1 := { l0 with spacing := 0 }
  let l2 := { l1 with contentsMargins := (1, 5, 1, 1) }
  let l3 := l2.addWidget (some (CentralChild.dropArea base.dropArea))
  let l4 := if d.m_supportsMinimize then l3.addWidget (d.m_sideBar.map CentralChild.sideBar) else l3
  { base := base, d := d, centralLayout := l4 }

/-- The member `sideBar`. -/
def sideBar (mw : MainWindow) : Option SideBarWidget :=
  mw.d.m_sideBar

end MainWindow

/-! ## The mapping from drop locations to multisplitter locations -/

open Location DropLocation

/-- C1: `multisplitterLocationFor` sends Left and OutterLeft to OnLeft, Top and OutterTop to
OnTop, Right and OutterRight to OnRight, Bottom and OutterBottom to OnBottom, None and
Center to `Location_None`; so the result is `Location_None` exactly for None and Center, and
an inner location has the image of its outer counterpart. -/
theorem multisplitterLocationFor_table :
    (multisplitterLocationFor DropLocation_Left = Location_OnLeft ∧
      multisplitterLocationFor DropLocation_OutterLeft = Location_OnLeft ∧
      multisplitterLocationFor DropLocation_Top = Location_OnTop ∧
      multisplitterLocationFor DropLocation_OutterTop = Location_OnTop ∧
      multisplitterLocationFor DropLocation_Right = Location_OnRight ∧
      multisplitterLocationFor DropLocation_OutterRight = Location_OnRight ∧
      multisplitterLocationFor DropLocation_Bottom = Location_OnBottom ∧
      multisplitterLocationFor DropLocation_OutterBottom = Location_OnBottom ∧
      multisplitterLocationFor DropLocation_None = Location_None ∧
      multisplitterLocationFor DropLocation_Center = Location_None) ∧
    (∀ d : DropLocation, multisplitterLocationFor d = Location_None ↔
      (d = DropLocation_None ∨ d = DropLocation_Center)) ∧
    (∀ d : DropLocation,
      multisplitterLocationFor d = multisplitterLocationFor (outerCounterpart d)) := by
  refine ⟨by simp [multisplitterLocationFor], ?_, ?_⟩
  · intro d
    cases d <;> simp [multisplitterLocationFor]
  · intro d
    cases d <;> rfl

/-! ## The overlay: what the setters do to the members -/

namespace DropIndicatorOverlayInterface

variable {E : Type}

theorem setHoveredFrameRect_members (rect : QRect) (s : DropIndicatorOverlayInterface E) :
    (setHoveredFrameRect rect s).toInterfaceMembers =
      { s.toInterfaceMembers with
        m_hoveredFrameRect := rect
        emitted := s.emitted ++
          (if s.m_hoveredFrameRect ≠ rect then [Signal.hoveredFrameRectChanged] else []) } := by
  unfold setHoveredFrameRect
  by_cases h : s.m_hoveredFrameRect = rect
  · subst h
    simp
  · simp [h, emit]

theorem setHoveredFrameRect_widget (rect : QRect) (s : DropIndicatorOverlayInterface E) :
    (setHoveredFrameRect rect s).toQWidgetAdapter = s.toQWidgetAdapter := by
  unfold setHoveredFrameRect
  split <;> rfl

theorem setHoveredFrame_members (H : Hooks E) (hM : KeepMembers H) (w : World)
    (frame : Option Frame) (s : DropIndicatorOverlayInterface E)
    (hne : frame ≠ s.m_hoveredFrame) :
    (setHoveredFrame H w frame s).toInterfaceMembers =
      { s.toInterfaceMembers with
        m_hoveredFrame := frame
        m_hoveredFrameRect := rectFor w frame
        destroyedConnections := withoutOld s.m_hoveredFrame s.destroyedConnections ++ frame.toList
        emitted := s.emitted ++
          (if s.m_hoveredFrameRect ≠ rectFor w frame then [Signal.hoveredFrameRectChanged]
           else []) ++ [Signal.hoveredFrameChanged frame] } := by
  obtain ⟨hU, hO⟩ := hM
  unfold setHoveredFrame
  rw [if_neg hne]
  simp only [hO, emit, hU]
  cases frame with
  | none =>
    cases hs : s.m_hoveredFrame with
    | none => exact absurd hs.symm hne
    | some o =>
      simp [setHoveredFrameRect_members, disconnectDestroyed, rectFor, withoutOld, hU]
  | some f =>
    cases hs : s.m_hoveredFrame with
    | none =>
      simp [setHoveredFrameRect_members, connectDestroyed, rectFor, withoutOld, hU]
    | some o =>
      simp [setHoveredFrameRect_members, connectDestroyed, disconnectDestroyed, rectFor,
        withoutOld, hU]

theorem setHoveredFrame_visible (H : Hooks E) (hV : KeepVisibility H) (w : World)
    (frame : Option Frame) (s : DropIndicatorOverlayInterface E) :
    (setHoveredFrame H w frame s).visible = s.visible := by
  obtain ⟨hU, hO⟩ := hV
  unfold setHoveredFrame
  split
  · rfl
  · simp only [hO, emit, hU]
    cases frame <;> cases s.m_hoveredFrame <;>
      simp [setHoveredFrameRect_widget, connectDestroyed, disconnectDestroyed]

theorem setHoveredFrame_same (H : Hooks E) (w : World) (s : DropIndicatorOverlayInterface E) :
    setHoveredFrame H w s.m_hoveredFrame s = s := by
  simp [setHoveredFrame]

theorem keepDragged_of_keepMembers (H : Hooks E) (hM : KeepMembers H) : KeepDragged H :=
  ⟨fun s => congrArg InterfaceMembers.m_windowBeingDragged (hM.1 s),
    fun f s => congrArg InterfaceMembers.m_windowBeingDragged (hM.2 f s)⟩

theorem setHoveredFrameRect_dragged (rect : QRect) (s : DropIndicatorOverlayInterface E) :
    (setHoveredFrameRect rect s).m_windowBeingDragged = s.m_windowBeingDragged := by
  unfold setHoveredFrameRect
  split <;> rfl

theorem setHoveredFrame_dragged (H : Hooks E) (hD : KeepDragged H) (w : World)
    (frame : Option Frame) (s : DropIndicatorOverlayInterface E) :
    (setHoveredFrame H w frame s).m_windowBeingDragged = s.m_windowBeingDragged := by
  obtain ⟨hU, hO⟩ := hD
  unfold setHoveredFrame
  split
  · rfl
  · simp only [hO, emit, hU]
    cases frame <;> cases s.m_hoveredFrame <;>
      simp [setHoveredFrameRect_dragged, connectDestroyed, disconnectDestroyed]

theorem setHoveredFrame_dropLocation (H : Hooks E) (hM : KeepMembers H) (w : World)
    (frame : Option Frame) (s : DropIndicatorOverlayInterface E) :
    (setHoveredFrame H w frame s).m_currentDropLocation = s.m_currentDropLocation := by
  by_cases h : frame = s.m_hoveredFrame
  · subst h
    rw [setHoveredFrame_same]
  · have hm := setHoveredFrame_members H hM w frame s h
    rw [show (setHoveredFrame H w frame s).m_currentDropLocation =
      (setHoveredFrame H w frame s).toInterfaceMembers.m_currentDropLocation from rfl, hm]

/-- The members after `setWindowBeingDragged` are those after the inner calls: the widget
calls and the hooks do not touch them. -/
theorem setWindowBeingDragged_members (H : Hooks E) (hM : KeepMembers H) (w : World)
    (window : Option FloatingWindow) (s : DropIndicatorOverlayInterface E)
    (hne : window ≠ s.m_windowBeingDragged) :
    (setWindowBeingDragged H w window s).toInterfaceMembers =
      match window with
      | some x => { s.toInterfaceMembers with m_windowBeingDragged := some x }
      | none => (setHoveredFrame H w none
          { s with m_windowBeingDragged := none }).toInterfaceMembers := by
  unfold setWindowBeingDragged
  rw [if_neg hne]
  cases window with
  | none => simp [hM.1, setVisible]
  | some x => simp [hM.1, setVisible, raise, setGeometry]

theorem setWindowBeingDragged_dragged (H : Hooks E) (hD : KeepDragged H) (w : World)
    (window : Option FloatingWindow) (s : DropIndicatorOverlayInterface E) :
    (setWindowBeingDragged H w window s).m_windowBeingDragged = window := by
  unfold setWindowBeingDragged
  split
  · rename_i h
    exact h.symm
  · cases window with
    | none =>
      simp only [hD.1, setVisible]
      rw [setHoveredFrame_dragged H hD]
    | some x => simp [hD.1, setVisible, raise, setGeometry]

theorem setWindowBeingDragged_visible (H : Hooks E) (hV : KeepVisibility H)
    (hD : KeepDragged H) (w : World) (window : Option FloatingWindow)
    (s : DropIndicatorOverlayInterface E) (hne : window ≠ s.m_windowBeingDragged) :
    (setWindowBeingDragged H w window s).visible = (window != none) := by
  unfold setWindowBeingDragged
  rw [if_neg hne]
  cases window with
  | none =>
    simp only [hV.1, setVisible]
    rw [setHoveredFrame_dragged H hD]
  | some x => simp [hV.1, setVisible, raise, setGeometry]

/-- Visibility and `isHovered` agree, and stay in agreement under `setWindowBeingDragged`. -/
theorem setWindowBeingDragged_keeps_agreement (H : Hooks E) (hV : KeepVisibility H)
    (hD : KeepDragged H) (w : World) (window : Option FloatingWindow)
    (s : DropIndicatorOverlayInterface E) (hs : s.visible = isHovered s) :
    (setWindowBeingDragged H w window s).visible =
      isHovered (setWindowBeingDragged H w window s) := by
  unfold isHovered
  rw [setWindowBeingDragged_dragged H hD]
  by_cases h : window = s.m_windowBeingDragged
  · have : setWindowBeingDragged H w window s = s := by simp [setWindowBeingDragged, h]
    rw [this, hs, isHovered, h]
  · exact setWindowBeingDragged_visible H hV hD w window s h

theorem runDrags_agreement (H : Hooks E) (hV : KeepVisibility H) (hD : KeepDragged H)
    (drags : List (World × Option FloatingWindow)) (s : DropIndicatorOverlayInterface E)
    (hs : s.visible = isHovered s) :
    (runDrags H drags s).visible = isHovered (runDrags H drags s) := by
  induction drags generalizing s with
  | nil => exact hs
  | cons d rest ih =>
    exact ih _ (setWindowBeingDragged_keeps_agreement H hV hD d.1 d.2 s hs)

theorem construct_agreement (widget0 : QWidgetAdapter) (loc0 : DropLocation) (ext0 : E) :
    (construct widget0 loc0 ext0).visible = isHovered (construct widget0 loc0 ext0) := rfl

theorem keepVisibility_countingHooks : KeepVisibility countingHooks :=
  ⟨fun _ => rfl, fun _ _ => rfl⟩

theorem keepDragged_countingHooks : KeepDragged countingHooks :=
  ⟨fun _ => rfl, fun _ _ => rfl⟩

theorem keepMembers_countingHooks : KeepMembers countingHooks :=
  ⟨fun _ => rfl, fun _ _ => rfl⟩

/-- C2, refuted as stated: the hooks of `forgetfulHooks` never change the overlay's
visibility, yet after the single call `setWindowBeingDragged(4)` on a new overlay the overlay
is visible while `isHovered()` is false, although the window passed is not null: the
override of `updateVisibility`, called last, has reset `m_windowBeingDragged`. -/
theorem visible_without_hovered_when_hook_resets_window :
    KeepVisibility forgetfulHooks ∧
    (runDrags forgetfulHooks [(World.uniform QRect.null, some 4)]
      (construct sampleWidget DropLocation.DropLocation_None ())).visible = true ∧
    isHovered (runDrags forgetfulHooks [(World.uniform QRect.null, some 4)]
      (construct sampleWidget DropLocation.DropLocation_None ())) = false ∧
    (some 4 : Option FloatingWindow) ≠ none :=
  ⟨⟨fun _ => rfl, fun _ _ => rfl⟩, by decide, by decide, by decide⟩

/-- C2, amended: start from a new overlay and apply `setWindowBeingDragged` calls; with hooks
that leave the overlay's visibility and also the window being dragged alone, after each call
the overlay is visible exactly when `isHovered` holds, which is exactly when the window of
that call is not null. -/
theorem visible_iff_hovered_iff_window (H : Hooks E) (hV : KeepVisibility H)
    (hD : KeepDragged H) (widget0 : QWidgetAdapter) (loc0 : DropLocation) (ext0 : E)
    (earlier : List (World × Option FloatingWindow)) (w : World)
    (window : Option FloatingWindow) :
    ((runDrags H (earlier ++ [(w, window)]) (construct widget0 loc0 ext0)).visible = true ↔
      isHovered (runDrags H (earlier ++ [(w, window)]) (construct widget0 loc0 ext0)) = true) ∧
    (isHovered (runDrags H (earlier ++ [(w, window)]) (construct widget0 loc0 ext0)) = true ↔
      window ≠ none) := by
  have hagree := runDrags_agreement H hV hD (earlier ++ [(w, window)])
    (construct widget0 loc0 ext0) (construct_agreement widget0 loc0 ext0)
  refine ⟨by rw [hagree], ?_⟩
  have hlast : runDrags H (earlier ++ [(w, window)]) (construct widget0 loc0 ext0) =
      setWindowBeingDragged H w window (runDrags H earlier (construct widget0 loc0 ext0)) := by
    simp [runDrags, List.foldl_append]
  rw [hlast, isHovered, setWindowBeingDragged_dragged H hD]
  cases window <;> simp

/-- C2 amended, at a concrete run: drag window 4, end the drag, drag window 5. -/
theorem visible_iff_hovered_iff_window_witness :
    KeepVisibility countingHooks ∧ KeepDragged countingHooks ∧
    ((runDrags countingHooks
        ([(World.uniform QRect.null, some 4), (World.uniform QRect.null, none)] ++
          [(World.uniform QRect.null, some 5)])
        (construct sampleWidget DropLocation.DropLocation_None 0)).visible = true ↔
      isHovered (runDrags countingHooks
        ([(World.uniform QRect.null, some 4), (World.uniform QRect.null, none)] ++
          [(World.uniform QRect.null, some 5)])
        (construct sampleWidget DropLocation.DropLocation_None 0)) = true) ∧
    (isHovered (runDrags countingHooks
        ([(World.uniform QRect.null, some 4), (World.uniform QRect.null, none)] ++
          [(World.uniform QRect.null, some 5)])
        (construct sampleWidget DropLocation.DropLocation_None 0)) = true ↔
      (some 5 : Option FloatingWindow) ≠ none) :=
  ⟨keepVisibility_countingHooks, keepDragged_countingHooks,
    visible_iff_hovered_iff_window countingHooks keepVisibility_countingHooks
      keepDragged_countingHooks sampleWidget DropLocation.DropLocation_None 0
      [(World.uniform QRect.null, some 4), (World.uniform QRect.null, none)]
      (World.uniform QRect.null) (some 5)⟩

/-! ## The overlay: consistency of the bookkeeping in every reachable state -/

theorem consistent_construct (widget0 : QWidgetAdapter) (loc0 : DropLocation) (ext0 : E) :
    Consistent (construct widget0 loc0 ext0) :=
  ⟨rfl, fun _ => rfl⟩

theorem consistent_setHoveredFrame (H : Hooks E) (hM : KeepMembers H) (w : World)
    (frame : Option Frame) (s : DropIndicatorOverlayInterface E) (hs : Consistent s) :
    Consistent (setHoveredFrame H w frame s) := by
  by_cases h : frame = s.m_hoveredFrame
  · subst h
    rw [setHoveredFrame_same]
    exact hs
  · have hm := setHoveredFrame_members H hM w frame s h
    obtain ⟨hc, _⟩ := hs
    unfold Consistent
    rw [show (setHoveredFrame H w frame s).destroyedConnections =
        (setHoveredFrame H w frame s).toInterfaceMembers.destroyedConnections from rfl,
      show (setHoveredFrame H w frame s).m_hoveredFrame =
        (setHoveredFrame H w frame s).toInterfaceMembers.m_hoveredFrame from rfl,
      show (setHoveredFrame H w frame s).m_hoveredFrameRect =
        (setHoveredFrame H w frame s).toInterfaceMembers.m_hoveredFrameRect from rfl, hm]
    refine ⟨?_, ?_⟩
    · simp only [hc]
      cases s.m_hoveredFrame <;> simp [withoutOld]
    · intro hf
      simp only at hf
      subst hf
      rfl

theorem consistent_setCurrentDropLocation (location : DropLocation)
    (s : DropIndicatorOverlayInterface E) (hs : Consistent s) :
    Consistent (setCurrentDropLocation location s) := by
  unfold setCurrentDropLocation
  split
  · exact hs
  · exact hs

theorem consistent_setWindowBeingDragged (H : Hooks E) (hM : KeepMembers H) (w : World)
    (window : Option FloatingWindow) (s : DropIndicatorOverlayInterface E)
    (hs : Consistent s) : Consistent (setWindowBeingDragged H w window s) := by
  by_cases h : window = s.m_windowBeingDragged
  · have : setWindowBeingDragged H w window s = s := by simp [setWindowBeingDragged, h]
    rw [this]
    exact hs
  · have hm := setWindowBeingDragged_members H hM w window s h
    have key : ∀ t u : DropIndicatorOverlayInterface E,
        t.toInterfaceMembers = u.toInterfaceMembers → Consistent u → Consistent t := by
      intro t u htu hu
      unfold Consistent at hu ⊢
      rw [show t.destroyedConnections = t.toInterfaceMembers.destroyedConnections from rfl,
        show t.m_hoveredFrame = t.toInterfaceMembers.m_hoveredFrame from rfl,
        show t.m_hoveredFrameRect = t.toInterfaceMembers.m_hoveredFrameRect from rfl, htu]
      exact hu
    cases window with
    | none =>
      exact key _ _ hm (consistent_setHoveredFrame H hM w none _ hs)
    | some x =>
      exact key _ { s with m_windowBeingDragged := some x } hm hs

theorem setHoveredFrame_hovered (H : Hooks E) (hM : KeepMembers H) (w : World)
    (frame : Option Frame) (s : DropIndicatorOverlayInterface E) :
    (setHoveredFrame H w frame s).m_hoveredFrame = frame := by
  by_cases h : frame = s.m_hoveredFrame
  · subst h
    rw [setHoveredFrame_same]
  · have hm := setHoveredFrame_members H hM w frame s h
    rw [show (setHoveredFrame H w frame s).m_hoveredFrame =
      (setHoveredFrame H w frame s).toInterfaceMembers.m_hoveredFrame from rfl, hm]

theorem consistent_disconnect_other (frame : Frame) (t : DropIndicatorOverlayInterface E)
    (ht : Consistent t) (hne : t.m_hoveredFrame ≠ some frame) :
    Consistent (disconnectDestroyed frame t) := by
  obtain ⟨hc, hr⟩ := ht
  refine ⟨?_, hr⟩
  show t.destroyedConnections.filter (fun g => g ≠ frame) = t.m_hoveredFrame.toList
  rw [hc]
  cases hf : t.m_hoveredFrame with
  | none => rfl
  | some f =>
    have : f ≠ frame := fun e => hne (by rw [hf, e])
    simp [this]

/-- In a consistent state the destruction of the hovered frame runs the slot exactly once,
and the destruction of any other frame runs nothing. -/
theorem frameDestroyed_eq (H : Hooks E) (w : World) (frame : Frame)
    (s : DropIndicatorOverlayInterface E) (hs : Consistent s) :
    frameDestroyed H w frame s =
      if s.m_hoveredFrame = some frame then disconnectDestroyed frame (onFrameDestroyed H w s)
      else disconnectDestroyed frame s := by
  unfold frameDestroyed
  rw [hs.1]
  cases hf : s.m_hoveredFrame with
  | none => simp
  | some f =>
    by_cases h : f = frame
    · subst h
      simp
    · have hc : List.count frame [f] = 0 := by
        rw [List.count_eq_zero]
        simpa using fun e => h e.symm
      simp [hc, h]

theorem consistent_frameDestroyed (H : Hooks E) (hM : KeepMembers H) (w : World)
    (frame : Frame) (s : DropIndicatorOverlayInterface E) (hs : Consistent s) :
    Consistent (frameDestroyed H w frame s) := by
  rw [frameDestroyed_eq H w frame s hs]
  split
  · apply consistent_disconnect_other frame _ (consistent_setHoveredFrame H hM w none s hs)
    rw [setHoveredFrame_hovered H hM]
    simp
  · rename_i h
    exact consistent_disconnect_other frame s hs h

theorem consistent_apply (H : Hooks E) (hM : KeepMembers H) (c : Call)
    (s : DropIndicatorOverlayInterface E) (hs : Consistent s) : Consistent (c.apply H s) := by
  cases c with
  | setHoveredFrame w frame => exact consistent_setHoveredFrame H hM w frame s hs
  | setWindowBeingDragged w window => exact consistent_setWindowBeingDragged H hM w window s hs
  | setCurrentDropLocation location => exact consistent_setCurrentDropLocation location s hs
  | onFrameDestroyed w => exact consistent_setHoveredFrame H hM w none s hs
  | frameDestroyed w frame => exact consistent_frameDestroyed H hM w frame s hs

theorem consistent_run (H : Hooks E) (hM : KeepMembers H) (calls : List Call)
    (s : DropIndicatorOverlayInterface E) (hs : Consistent s) : Consistent (run H calls s) := by
  induction calls generalizing s with
  | nil => exact hs
  | cons c rest ih => exact ih _ (consistent_apply H hM c s hs)

theorem consistent_of_reachable (H : Hooks E) (hM : KeepMembers H)
    (s : DropIndicatorOverlayInterface E) (hs : Reachable H s) : Consistent s := by
  obtain ⟨calls, widget0, loc0, ext0, rfl⟩ := hs
  exact consistent_run H hM calls _ (consistent_construct widget0 loc0 ext0)

theorem reachable_sampleDragging : Reachable countingHooks sampleDragging :=
  ⟨_, _, _, _, rfl⟩

/-- C6: in every reachable state with a window being dragged, `setWindowBeingDragged(nullptr)`
leaves no hovered frame, the null rectangle, `isHovered()` false and the overlay hidden,
and keeps the current drop location; the hooks are taken to leave visibility and members
alone. -/
theorem end_of_drag_clears_hover (H : Hooks E) (hV : KeepVisibility H) (hM : KeepMembers H)
    (w : World) (s : DropIndicatorOverlayInterface E) (hreach : Reachable H s)
    (hdrag : s.m_windowBeingDragged ≠ none) :
    hoveredFrame (setWindowBeingDragged H w none s) = none ∧
    hoveredFrameRect (setWindowBeingDragged H w none s) = QRect.null ∧
    isHovered (setWindowBeingDragged H w none s) = false ∧
    (setWindowBeingDragged H w none s).visible = false ∧
    currentDropLocation (setWindowBeingDragged H w none s) = currentDropLocation s := by
  have hne : (none : Option FloatingWindow) ≠ s.m_windowBeingDragged := fun e => hdrag e.symm
  have hm := setWindowBeingDragged_members H hM w none s hne
  simp only at hm
  have hs0 : Consistent { s with m_windowBeingDragged := none } :=
    consistent_of_reachable H hM s hreach
  have hc := consistent_setHoveredFrame H hM w none _ hs0
  have hh := setHoveredFrame_hovered H hM w none { s with m_windowBeingDragged := none }
  have hd := setHoveredFrame_dropLocation H hM w none { s with m_windowBeingDragged := none }
  refine ⟨?_, ?_, ?_, ?_, ?_⟩
  · show (setWindowBeingDragged H w none s).toInterfaceMembers.m_hoveredFrame = none
    rw [hm]
    exact hh
  · show (setWindowBeingDragged H w none s).toInterfaceMembers.m_hoveredFrameRect = QRect.null
    rw [hm]
    exact hc.2 hh
  · unfold isHovered
    rw [setWindowBeingDragged_dragged H (keepDragged_of_keepMembers H hM)]
    rfl
  · rw [setWindowBeingDragged_visible H hV (keepDragged_of_keepMembers H hM) w none s hne]
    rfl
  · show (setWindowBeingDragged H w none s).toInterfaceMembers.m_currentDropLocation = _
    rw [hm]
    exact hd

/-- C6 at the sample run: the drag of window 4 over frame 1 ends. -/
theorem end_of_drag_clears_hover_witness :
    Reachable countingHooks sampleDragging ∧ sampleDragging.m_windowBeingDragged ≠ none ∧
    hoveredFrame (setWindowBeingDragged countingHooks (World.uniform QRect.null) none
      sampleDragging) = none ∧
    hoveredFrameRect (setWindowBeingDragged countingHooks (World.uniform QRect.null) none
      sampleDragging) = QRect.null ∧
    isHovered (setWindowBeingDragged countingHooks (World.uniform QRect.null) none
      sampleDragging) = false ∧
    (setWindowBeingDragged countingHooks (World.uniform QRect.null) none
      sampleDragging).visible = false ∧
    currentDropLocation (setWindowBeingDragged countingHooks (World.uniform QRect.null) none
      sampleDragging) = currentDropLocation sampleDragging :=
  ⟨reachable_sampleDragging, by decide,
    end_of_drag_clears_hover countingHooks keepVisibility_countingHooks
      keepMembers_countingHooks (World.uniform QRect.null) sampleDragging
      reachable_sampleDragging (by decide)⟩

/-- C8: in every reachable state the overlay holds exactly one connection to the `destroyed`
signal of the hovered frame and none to any other frame (none at all without a hovered
frame); so the destruction of the hovered frame runs `onFrameDestroyed` once and leaves no
hovered frame, the null rectangle and no connection. The hooks are taken to leave the
members alone. -/
theorem destroyed_connection_follows_hovered_frame (H : Hooks E) (hM : KeepMembers H)
    (s : DropIndicatorOverlayInterface E) (hreach : Reachable H s) :
    (∀ g : Frame, s.destroyedConnections.count g = if s.m_hoveredFrame = some g then 1 else 0) ∧
    (s.m_hoveredFrame = none → s.destroyedConnections = []) ∧
    (∀ (w : World) (f : Frame), s.m_hoveredFrame = some f →
      frameDestroyed H w f s = disconnectDestroyed f (onFrameDestroyed H w s) ∧
      hoveredFrame (frameDestroyed H w f s) = none ∧
      hoveredFrameRect (frameDestroyed H w f s) = QRect.null ∧
      (frameDestroyed H w f s).destroyedConnections = []) := by
  have hs := consistent_of_reachable H hM s hreach
  refine ⟨?_, ?_, ?_⟩
  · intro g
    rw [hs.1]
    cases hf : s.m_hoveredFrame with
    | none => simp
    | some f =>
      by_cases h : f = g
      · subst h
        simp
      · have hc : List.count g [f] = 0 := by
          rw [List.count_eq_zero]
          simpa using fun e => h e.symm
        simp [hc, h]
  · intro hnone
    rw [hs.1, hnone]
    rfl
  · intro w f hf
    have hfd := consistent_frameDestroyed H hM w f s hs
    have heq := frameDestroyed_eq H w f s hs
    rw [if_pos hf] at heq
    have hh : (frameDestroyed H w f s).m_hoveredFrame = none := by
      rw [heq]
      show (onFrameDestroyed H w s).m_hoveredFrame = none
      exact setHoveredFrame_hovered H hM w none s
    refine ⟨heq, hh, hfd.2 hh, ?_⟩
    rw [hfd.1, hh]
    rfl

/-- C8 at the sample run, where frame 1 is hovered and then destroyed. -/
theorem destroyed_connection_follows_hovered_frame_witness :
    Reachable countingHooks sampleDragging ∧
    sampleDragging.destroyedConnections.count 1 = 1 ∧
    sampleDragging.destroyedConnections.count 2 = 0 ∧
    hoveredFrame (frameDestroyed countingHooks (World.uniform QRect.null) 1 sampleDragging) =
      none ∧
    hoveredFrameRect (frameDestroyed countingHooks (World.uniform QRect.null) 1
      sampleDragging) = QRect.null :=
  ⟨reachable_sampleDragging,
    ((destroyed_connection_follows_hovered_frame countingHooks keepMembers_countingHooks
      sampleDragging reachable_sampleDragging).1 1).trans (by decide),
    ((destroyed_connection_follows_hovered_frame countingHooks keepMembers_countingHooks
      sampleDragging reachable_sampleDragging).1 2).trans (by decide),
    ((destroyed_connection_follows_hovered_frame countingHooks keepMembers_countingHooks
      sampleDragging reachable_sampleDragging).2.2 (World.uniform QRect.null) 1
        (by decide)).2.1,
    ((destroyed_connection_follows_hovered_frame countingHooks keepMembers_countingHooks
      sampleDragging reachable_sampleDragging).2.2 (World.uniform QRect.null) 1
        (by decide)).2.2.1⟩

/-! ## The overlay: the stored rectangle and the setters -/

/-- C5, refuted as stated: frame 1 is hovered with the rectangle (10,20)-(109,79) stored; its
geometry then grows to (10,20)-(209,79) and `setHoveredFrame` is called with frame 1 again.
The call returns at its first test and `hoveredFrameRect()` is still the old rectangle, not
the current geometry of the frame. -/
theorem hoveredFrameRect_stale_for_same_frame :
    sampleDragging.m_hoveredFrame = some 1 ∧
    (World.uniform ⟨10, 20, 209, 79⟩).frameGeometry 1 = ⟨10, 20, 209, 79⟩ ∧
    hoveredFrameRect (setHoveredFrame countingHooks (World.uniform ⟨10, 20, 209, 79⟩) (some 1)
      sampleDragging) = ⟨10, 20, 109, 79⟩ ∧
    hoveredFrameRect (setHoveredFrame countingHooks (World.uniform ⟨10, 20, 209, 79⟩) (some 1)
      sampleDragging) ≠ (World.uniform ⟨10, 20, 209, 79⟩).frameGeometry 1 := by
  decide

/-- C5, amended: after `setHoveredFrame(f)` with a non-null `f` that was not the hovered frame,
`hoveredFrameRect()` is the current geometry of `f`; with a null `f`, in a reachable state,
it is the null rectangle; and with `f` already the hovered frame nothing changes, so the
rectangle stored before stays. The hooks are taken to leave the members alone. -/
theorem hoveredFrameRect_after_setHoveredFrame (H : Hooks E) (hM : KeepMembers H) (w : World)
    (frame : Option Frame) (s : DropIndicatorOverlayInterface E) :
    (∀ f : Frame, frame = some f → s.m_hoveredFrame ≠ some f →
      hoveredFrameRect (setHoveredFrame H w frame s) = w.frameGeometry f) ∧
    (Reachable H s → frame = none →
      hoveredFrameRect (setHoveredFrame H w frame s) = QRect.null) ∧
    (frame = s.m_hoveredFrame → setHoveredFrame H w frame s = s ∧
      hoveredFrameRect (setHoveredFrame H w frame s) = hoveredFrameRect s) := by
  refine ⟨?_, ?_, ?_⟩
  · intro f hf hne
    subst hf
    have hm := setHoveredFrame_members H hM w (some f) s (fun e => hne e.symm)
    show (setHoveredFrame H w (some f) s).toInterfaceMembers.m_hoveredFrameRect = _
    rw [hm]
    rfl
  · intro hreach hf
    subst hf
    have hc := consistent_setHoveredFrame H hM w none s (consistent_of_reachable H hM s hreach)
    exact hc.2 (setHoveredFrame_hovered H hM w none s)
  · intro hf
    subst hf
    rw [setHoveredFrame_same]
    exact ⟨rfl, rfl⟩

/-- C5 amended, at the sample run: the hover moves from frame 1 to frame 2, or to no frame. -/
theorem hoveredFrameRect_after_setHoveredFrame_witness :
    KeepMembers countingHooks ∧ sampleDragging.m_hoveredFrame ≠ some 2 ∧
    Reachable countingHooks sampleDragging ∧
    hoveredFrameRect (setHoveredFrame countingHooks (World.uniform ⟨0, 0, 49, 49⟩) (some 2)
      sampleDragging) = (World.uniform ⟨0, 0, 49, 49⟩).frameGeometry 2 ∧
    hoveredFrameRect (setHoveredFrame countingHooks (World.uniform ⟨0, 0, 49, 49⟩) none
      sampleDragging) = QRect.null :=
  ⟨keepMembers_countingHooks, by decide, reachable_sampleDragging,
    (hoveredFrameRect_after_setHoveredFrame countingHooks keepMembers_countingHooks
      (World.uniform ⟨0, 0, 49, 49⟩) (some 2) sampleDragging).1 2 rfl (by decide),
    (hoveredFrameRect_after_setHoveredFrame countingHooks keepMembers_countingHooks
      (World.uniform ⟨0, 0, 49, 49⟩) none sampleDragging).2.1 reachable_sampleDragging rfl⟩

/-- C7: each of the four setters, called with the value already stored, returns the state it
was given (so nothing is emitted either); called with another value, the getter returns the
new value and the log grows by the setter's change signal, once: `currentDropLocationChanged`,
`hoveredFrameRectChanged`, and for `setHoveredFrame` one `hoveredFrameChanged` after at most
one `hoveredFrameRectChanged`. `setWindowBeingDragged` has no signal of its own; after it
`isHovered()` tells whether the new window is non-null. Where hooks run they are taken to
leave the members alone. -/
theorem setters_same_value_or_new_value (H : Hooks E) (w : World)
    (s : DropIndicatorOverlayInterface E) :
    (setCurrentDropLocation s.m_currentDropLocation s = s ∧
      setHoveredFrameRect s.m_hoveredFrameRect s = s ∧
      setHoveredFrame H w s.m_hoveredFrame s = s ∧
      setWindowBeingDragged H w s.m_windowBeingDragged s = s) ∧
    (∀ location : DropLocation, location ≠ s.m_currentDropLocation →
      currentDropLocation (setCurrentDropLocation location s) = location ∧
      (setCurrentDropLocation location s).emitted =
        s.emitted ++ [Signal.currentDropLocationChanged]) ∧
    (∀ rect : QRect, rect ≠ s.m_hoveredFrameRect →
      hoveredFrameRect (setHoveredFrameRect rect s) = rect ∧
      (setHoveredFrameRect rect s).emitted = s.emitted ++ [Signal.hoveredFrameRectChanged]) ∧
    (KeepMembers H → ∀ frame : Option Frame, frame ≠ s.m_hoveredFrame →
      hoveredFrame (setHoveredFrame H w frame s) = frame ∧
      (setHoveredFrame H w frame s).emitted =
        s.emitted ++
          (if s.m_hoveredFrameRect ≠ rectFor w frame then [Signal.hoveredFrameRectChanged]
           else []) ++ [Signal.hoveredFrameChanged frame]) ∧
    (KeepMembers H → ∀ window : Option FloatingWindow, window ≠ s.m_windowBeingDragged →
      (setWindowBeingDragged H w window s).m_windowBeingDragged = window ∧
      isHovered (setWindowBeingDragged H w window s) = (window != none)) := by
  refine ⟨⟨?_, ?_, ?_, ?_⟩, ?_, ?_, ?_, ?_⟩
  · simp [setCurrentDropLocation]
  · simp [setHoveredFrameRect]
  · exact setHoveredFrame_same H w s
  · simp [setWindowBeingDragged]
  · intro location hne
    have h : s.m_currentDropLocation ≠ location := fun e => hne e.symm
    simp [setCurrentDropLocation, h, emit, currentDropLocation]
  · intro rect hne
    have h : s.m_hoveredFrameRect ≠ rect := fun e => hne e.symm
    simp [setHoveredFrameRect, h, emit, hoveredFrameRect]
  · intro hM frame hne
    have hm := setHoveredFrame_members H hM w frame s hne
    refine ⟨setHoveredFrame_hovered H hM w frame s, ?_⟩
    show (setHoveredFrame H w frame s).toInterfaceMembers.emitted = _
    rw [hm]
  · intro hM window _
    have hd := setWindowBeingDragged_dragged H (keepDragged_of_keepMembers H hM) w window s
    refine ⟨hd, ?_⟩
    unfold isHovered
    rw [hd]

/-- C7 at the sample run: the same frame again, then a new drop location and a new frame. -/
theorem setters_same_value_or_new_value_witness :
    KeepMembers countingHooks ∧
    DropLocation.DropLocation_Left ≠ sampleDragging.m_currentDropLocation ∧
    (some 2 : Option Frame) ≠ sampleDragging.m_hoveredFrame ∧
    setHoveredFrame countingHooks (World.uniform ⟨0, 0, 49, 49⟩) sampleDragging.m_hoveredFrame
      sampleDragging = sampleDragging ∧
    (setCurrentDropLocation DropLocation.DropLocation_Left sampleDragging).emitted =
      sampleDragging.emitted ++ [Signal.currentDropLocationChanged] ∧
    hoveredFrame (setHoveredFrame countingHooks (World.uniform ⟨0, 0, 49, 49⟩) (some 2)
      sampleDragging) = some 2 :=
  ⟨keepMembers_countingHooks, by decide, by decide,
    (setters_same_value_or_new_value countingHooks (World.uniform ⟨0, 0, 49, 49⟩)
      sampleDragging).1.2.2.1,
    ((setters_same_value_or_new_value countingHooks (World.uniform ⟨0, 0, 49, 49⟩)
      sampleDragging).2.1 DropLocation.DropLocation_Left (by decide)).2,
    ((setters_same_value_or_new_value countingHooks (World.uniform ⟨0, 0, 49, 49⟩)
      sampleDragging).2.2.2.1 keepMembers_countingHooks (some 2) (by decide)).1⟩

end DropIndicatorOverlayInterface

/-! ## The side bar widget: buttons and stretch -/

namespace SideBarWidget

theorem insertIdx_before_last (pre : List LayoutItem) (x a : LayoutItem) :
    (pre ++ [a]).insertIdx pre.length x = pre ++ [x, a] := by
  induction pre with
  | nil => rfl
  | cons p rest ih => simp [List.insertIdx_succ_cons, ih]

theorem addDockWidget_Impl_step (dw : DockWidgetBase) (sb : SideBarWidget)
    (pre : List LayoutItem) (hitems : sb.m_layout.items = pre ++ [LayoutItem.stretch]) :
    (addDockWidget_Impl dw sb).m_layout.items =
      pre ++ [LayoutItem.widget ⟨sb.buttonsCreated, dw.title⟩] ++ [LayoutItem.stretch] ∧
    (addDockWidget_Impl dw sb).buttonsCreated = sb.buttonsCreated + 1 ∧
    (addDockWidget_Impl dw sb).connections = sb.connections ++ connectionsFor sb.buttonsCreated [dw] ∧
    (addDockWidget_Impl dw sb).orientation = sb.orientation := by
  have hcount : sb.m_layout.count - 1 = (pre.length : Int) := by
    simp [QBoxLayout.count, hitems]
  have hnn : ¬ ((pre.length : Int) < 0) := by omega
  refine ⟨?_, rfl, ?_, rfl⟩
  · simp only [addDockWidget_Impl, createButton, hcount, QBoxLayout.insertWidget, hnn, if_false,
      hitems, Int.toNat_ofNat, insertIdx_before_last]
    simp
  · simp [addDockWidget_Impl, createButton, connectionsFor, List.enumFrom]

theorem addAll_from (dws : List DockWidgetBase) (sb : SideBarWidget) (pre : List LayoutItem)
    (hitems : sb.m_layout.items = pre ++ [LayoutItem.stretch]) :
    (addAll dws sb).m_layout.items =
      pre ++ buttonItems sb.buttonsCreated dws ++ [LayoutItem.stretch] ∧
    (addAll dws sb).connections = sb.connections ++ connectionsFor sb.buttonsCreated dws := by
  induction dws generalizing sb pre with
  | nil => simp [addAll, buttonItems, connectionsFor, hitems]
  | cons dw rest ih =>
    obtain ⟨h1, h2, h3, _⟩ := addDockWidget_Impl_step dw sb pre hitems
    have := ih (addDockWidget_Impl dw sb) _ h1
    rw [h2, h3] at this
    show (addAll rest (addDockWidget_Impl dw sb)).m_layout.items = _ ∧
      (addAll rest (addDockWidget_Impl dw sb)).connections = _
    rw [this.1, this.2]
    simp [buttonItems, connectionsFor, List.enumFrom]

/-- C9: from a new side bar, after `addDockWidget_Impl` for the dock widgets `dws` in order
(nothing else in between), the layout holds one button per dock widget, in that order and
with its title as text, followed by the stretch: n + 1 items, the i-th of them the button
made i-th and connected to the i-th dock widget, the last the stretch. -/
theorem buttons_in_order_then_stretch (orientation : Orientation) (dws : List DockWidgetBase) :
    (addAll dws (construct orientation)).m_layout.items =
      buttonItems 0 dws ++ [LayoutItem.stretch] ∧
    (addAll dws (construct orientation)).m_layout.items.length = dws.length + 1 ∧
    (∀ (i : Nat) (h : i < dws.length),
      (addAll dws (construct orientation)).m_layout.items[i]? =
        some (LayoutItem.widget ⟨i, (dws.get ⟨i, h⟩).title⟩) ∧
      SideBarConnection.clicked_onButtonClicked i (dws.get ⟨i, h⟩).id ∈
        (addAll dws (construct orientation)).connections) ∧
    (addAll dws (construct orientation)).m_layout.items[dws.length]? =
      some LayoutItem.stretch := by
  obtain ⟨hitems, hconn⟩ := addAll_from dws (construct orientation) [] rfl
  have hitems2 : (addAll dws (construct orientation)).m_layout.items =
      buttonItems 0 dws ++ [LayoutItem.stretch] := by
    rw [hitems]
    rfl
  have hlen : (buttonItems 0 dws).length = dws.length := by simp [buttonItems]
  refine ⟨hitems2, ?_, ?_, ?_⟩
  · rw [hitems2]
    simp [hlen]
  · intro i h
    constructor
    · rw [hitems2, List.getElem?_append_left (by rw [hlen]; exact h)]
      simp [buttonItems, List.getElem?_enumFrom, h]
    · rw [hconn]
      simp only [construct, List.nil_append, connectionsFor, List.mem_flatMap]
      refine ⟨(i, dws.get ⟨i, h⟩), ?_, by simp⟩
      rw [List.mem_iff_getElem?]
      exact ⟨i, by simp [List.getElem?_enumFrom, h]⟩
  · rw [hitems2, List.getElem?_append_right (by rw [hlen])]
    simp [hlen]

/-- C9 for two dock widgets, Files then Search, on a vertical side bar. -/
theorem buttons_in_order_then_stretch_witness :
    (1 < [(⟨7, "Files"⟩ : DockWidgetBase), ⟨9, "Search"⟩].length) ∧
    (addAll [⟨7, "Files"⟩, ⟨9, "Search"⟩] (construct Orientation.Vertical)).m_layout.items =
      [LayoutItem.widget ⟨0, "Files"⟩, LayoutItem.widget ⟨1, "Search"⟩, LayoutItem.stretch] ∧
    SideBarConnection.clicked_onButtonClicked 1 9 ∈
      (addAll [⟨7, "Files"⟩, ⟨9, "Search"⟩] (construct Orientation.Vertical)).connections :=
  ⟨by decide,
    (buttons_in_order_then_stretch Orientation.Vertical [⟨7, "Files"⟩, ⟨9, "Search"⟩]).1,
    ((buttons_in_order_then_stretch Orientation.Vertical [⟨7, "Files"⟩, ⟨9, "Search"⟩]).2.2.1 1
      (by decide)).2⟩

end SideBarWidget

/-! ## The main window: the side bar exists exactly with auto-hide -/

namespace MainWindow

/-- C4: `sideBar()` is non-null exactly when auto-hide was supported at construction, and is
then a horizontal side bar; the layout of the central widget holds the drop area and, after
it, the side bar exactly when there is one; without auto-hide `sideBar()` is null and the
layout holds the drop area alone. -/
theorem sideBar_iff_supportsAutoHide (supportsAutoHide : Bool) (base : MainWindowBase)
    (area : DropAreaWithCentralFrame) :
    ((sideBar (construct supportsAutoHide base area)).isSome = true ↔
      supportsAutoHide = true) ∧
    (∀ bar : SideBarWidget, sideBar (construct supportsAutoHide base area) = some bar →
      bar.orientation = Orientation.Horizontal ∧
      (construct supportsAutoHide base area).centralLayout.widgets =
        [CentralChild.dropArea base.dropArea, CentralChild.sideBar bar]) ∧
    (sideBar (construct supportsAutoHide base area) = none →
      (construct supportsAutoHide base area).centralLayout.widgets =
        [CentralChild.dropArea base.dropArea]) ∧
    (supportsAutoHide = false →
      sideBar (construct supportsAutoHide base area) = none ∧
      (construct supportsAutoHide base area).centralLayout.widgets =
        [CentralChild.dropArea base.dropArea]) := by
  cases supportsAutoHide
  · refine ⟨by simp [sideBar, construct, MainWindowPrivate.construct], ?_, ?_, ?_⟩
    · intro bar h
      simp [sideBar, construct, MainWindowPrivate.construct] at h
    · intro _
      rfl
    · intro _
      exact ⟨rfl, rfl⟩
  · refine ⟨by simp [sideBar, construct, MainWindowPrivate.construct], ?_, ?_, ?_⟩
    · intro bar h
      simp only [sideBar, construct, MainWindowPrivate.construct, if_true, Option.some.injEq] at h
      subst h
      exact ⟨rfl, rfl⟩
    · intro h
      simp [sideBar, construct, MainWindowPrivate.construct] at h
    · intro h
      exact absurd h (by decide)

/-- C4 at two constructions: without auto-hide, and with it. -/
theorem sideBar_iff_supportsAutoHide_witness :
    (sideBar (construct false ⟨"main", 0, ⟨1⟩⟩ ⟨2⟩) = none ∧
      (construct false ⟨"main", 0, ⟨1⟩⟩ ⟨2⟩).centralLayout.widgets =
        [CentralChild.dropArea ⟨1⟩]) ∧
    (sideBar (construct true ⟨"main", 0, ⟨1⟩⟩ ⟨2⟩) =
        some (SideBarWidget.construct Orientation.Horizontal) ∧
      (construct true ⟨"main", 0, ⟨1⟩⟩ ⟨2⟩).centralLayout.widgets =
        [CentralChild.dropArea ⟨1⟩,
          CentralChild.sideBar (SideBarWidget.construct Orientation.Horizontal)]) :=
  ⟨(sideBar_iff_supportsAutoHide false ⟨"main", 0, ⟨1⟩⟩ ⟨2⟩).2.2.2 rfl,
    rfl,
    ((sideBar_iff_supportsAutoHide true ⟨"main", 0, ⟨1⟩⟩ ⟨2⟩).2.1
      (SideBarWidget.construct Orientation.Horizontal) rfl).2⟩

end MainWindow

end KDDockWidgets
